import Mathlib

/-!
Verification development for the VoiceScribe ASR daemon
(src/backend/transcribe_daemon.py).

The daemon is embedded shallowly:
  - outbound messages (send_message calls) become the inductive `Event`;
  - the opaque ASR model becomes `TModel`, whose `transcribe` field returns
    `Except String (List TResult)` (an exception or a result list);
  - the filesystem becomes `RawFS`, whose primitives may fail
    (`Except String _`); the pathlib wrappers `pathExists` / `pathGlobNames`
    absorb those failures exactly as `Path.exists` and `Path.glob` do in
    Python (errors become `false` / an empty listing);
  - `str.strip()` becomes `pyStrip`, `str.replace("/", "--")` becomes
    `pyReplaceSlash` / `cacheKey`;
  - the stdin command loop (lines 114-146 of the source) becomes `mainLoop`,
    a pure function from the list of input lines to the list of emitted
    events; `daemonMain` models the whole daemon run (startup, download,
    load, loop, shutdown) and returns the emitted events together with the
    process exit status.
-/

/-- Python str.strip() removes ASCII whitespace at both edges. -/
def pyIsSpace (c : Char) : Bool :=
  c = ' ' || c = '\t' || c = '\n' || c = '\x0d' || c = '\x0b' || c = '\x0c'

/-- Embedding of Python str.strip(): drop whitespace from both ends. -/
def pyStrip (s : String) : String :=
  String.mk (((s.data.dropWhile pyIsSpace).reverse.dropWhile pyIsSpace).reverse)

/-- Embedding of Python str.replace applied with a one-character needle:
model_name.replace .  Each occurrence of the slash becomes two dashes. -/
def pyReplaceSlash : List Char → List Char
  | [] => []
  | c :: cs => if c = '/' then '-' :: '-' :: pyReplaceSlash cs else c :: pyReplaceSlash cs

/-- The on-disk cache key of a model identifier (line 30 of the source):
the identifier with every slash replaced by two dashes. -/
def cacheKey (model_name : String) : String :=
  String.mk (pyReplaceSlash model_name.data)

/-- Path of the model directory inside the cache: cache_dir / cacheKey. -/
def modelPath (cache_dir model_name : String) : String :=
  cache_dir ++ "/" ++ cacheKey model_name

/-- Does the pattern occur at the head of the list? -/
def startsWithChars : List Char → List Char → Bool
  | [], _ => true
  | _ :: _, [] => false
  | p :: ps, c :: cs => p = c && startsWithChars ps cs

/-- Does the pattern occur anywhere in the list?  Embeds the Python
substring test (the keyword in). -/
def hasSubChars (pat : List Char) : List Char → Bool
  | [] => startsWithChars pat []
  | c :: cs => startsWithChars pat (c :: cs) || hasSubChars pat cs

/-- String-level substring test: pat occurs somewhere in s. -/
def hasSub (s pat : String) : Bool :=
  hasSubChars pat.data s.data

/-- Raw filesystem primitives, each of which may fail (missing directory,
permission error, ...). -/
structure RawFS where
  rawExists : String → Except String Bool
  rawGlob : String → Except String (List String)

/-- Python pathlib Path.exists(): filesystem errors are caught internally
and reported as false. -/
def pathExists (fs : RawFS) (p : String) : Bool :=
  match fs.rawExists p with
  | Except.ok b => b
  | Except.error _ => false

/-- Python pathlib Path.glob: scandir failures are suppressed, yielding an
empty listing. -/
def pathGlobNames (fs : RawFS) (p : String) : List String :=
  match fs.rawGlob p with
  | Except.ok l => l
  | Except.error _ => []

/-- check_model_exists (lines 28-37): true when the derived model directory
exists and its listing holds an entry whose name contains the substring
safetensors.  The required_files list of the source is dead code and is not
embedded (nothing reads it). -/
def check_model_exists (fs : RawFS) (cache_dir model_name : String) : Bool :=
  let model_path := modelPath cache_dir model_name
  if pathExists fs model_path then
    (pathGlobNames fs model_path).any (fun f => hasSub f "safetensors")
  else
    false

/-- One result object returned by the model: a text and an optional
language attribute (getattr on a missing attribute yields the default). -/
structure TResult where
  text : String
  language : Option String
  deriving DecidableEq, Repr

deriving instance DecidableEq for Except

/-- The opaque ASR model: transcribe either raises or returns a result
list. -/
structure TModel where
  transcribe : String → Except String (List TResult)

/-- The outbound events, one constructor per distinct send_message call of
the source, fields matching its keyword arguments. -/
inductive Event where
  | status (state details : String)
  | download_start (model : String)
  | download_complete (path : String)
  | download_error (error : String)
  | fatal (message : String)
  | ready
  | transcription (text language : String)
  | error (message : String)
  deriving DecidableEq, Repr

/-- Lines 130-141: outcome of one model.transcribe call turned into the
event the daemon emits.  A truthy nonempty result list yields a
transcription event from its first element, with language defaulting to
unknown when the attribute is absent; an empty list yields an empty
transcription with language none; an exception yields an error event. -/
def processResult (res : Except String (List TResult)) : Event :=
  match res with
  | Except.ok [] => Event.transcription "" "none"
  | Except.ok (r :: _) => Event.transcription r.text (r.language.getD "unknown")
  | Except.error e => Event.error ("Transcription failed: " ++ e)

/-- The stdin command loop (lines 114-146).  Input is the list of lines
read before end-of-file; the value is the list of events emitted by the
loop body.  A blank line is skipped, the exact line QUIT (after strip)
breaks out, and every other line is treated as an audio path: a
transcribing status is emitted and the model is invoked on the stripped
line. -/
def mainLoop (model : TModel) : List String → List Event
  | [] => []
  | line :: rest =>
    let audio_path := pyStrip line
    if audio_path = "" then mainLoop model rest
    else if audio_path = "QUIT" then []
    else
      Event.status "transcribing" "Processing audio..." ::
      processResult (model.transcribe audio_path) :: mainLoop model rest

/-- The environment a daemon run depends on: the filesystem, the cache
directory (get_cache_dir, possibly overridden by the environment
variable), the outcome of the torch import at the top of main (line 62),
the outcome of the huggingface_hub and tqdm imports inside download_model
(lines 41-42), the outcome of snapshot_download, device availability
flags, the outcome of the qwen_asr import, the outcome of
from_pretrained, and the stdin lines. -/
structure Env where
  fs : RawFS
  cacheDir : String
  importTorch : Except String Unit
  importHub : Except String Unit
  download : Except String Unit
  mps : Bool
  cuda : Bool
  importQwen : Except String Unit
  load : String → Except String TModel
  stdinLines : List String

/-- The model identifier hard-wired at line 64. -/
def MODEL_NAME : String := "Qwen/Qwen3-ASR-1.7B"

/-- Outcome of download_model as seen by its caller: crash is an uncaught
exception propagating out of the function (the in-function imports are not
inside the try block), failed is the caught snapshot_download failure
(the source returns None after sending download_error), ok carries the
local directory the source returns. -/
inductive DlOutcome where
  | crash (e : String)
  | failed
  | ok (path : String)

/-- download_model (lines 39-59): first the huggingface_hub and tqdm
module imports at lines 41-42 execute, outside any try block, so a failing
one propagates out uncaught before any download event is sent; then
download_start is emitted and snapshot_download runs, followed by either
download_complete with the local directory or download_error (the source
then returns None). -/
def download_model (env : Env) (model_name : String) : List Event × DlOutcome :=
  match env.importHub with
  | Except.error e => ([], DlOutcome.crash e)
  | Except.ok _ =>
      match env.download with
      | Except.ok _ =>
          ([Event.download_start model_name,
            Event.download_complete (modelPath env.cacheDir model_name)],
           DlOutcome.ok (modelPath env.cacheDir model_name))
      | Except.error e =>
          ([Event.download_start model_name, Event.download_error e], DlOutcome.failed)

/-- Device selection (lines 89-94): mps, else cuda, else cpu. -/
def deviceOf (env : Env) : String :=
  if env.mps then "mps" else if env.cuda then "cuda" else "cpu"

/-- Lines 83-148: the load phase and everything after it.  The loading
status precedes the try block; the qwen_asr import happens inside the try
before device detection, so an import failure yields a fatal event without
a device status; a from_pretrained failure yields a fatal event after it.
On success the daemon emits ready, runs the command loop, and emits the
shutdown status.  The second component is the process exit status. -/
def loadPhase (env : Env) : List Event × Nat :=
  match env.importQwen with
  | Except.error e =>
      ([Event.status "loading" "Loading Qwen3-ASR into memory...",
        Event.fatal ("Failed to load model: " ++ e)], 0)
  | Except.ok _ =>
      let model_source := if pathExists env.fs (modelPath env.cacheDir MODEL_NAME)
                          then modelPath env.cacheDir MODEL_NAME else MODEL_NAME
      match env.load model_source with
      | Except.error e =>
          ([Event.status "loading" "Loading Qwen3-ASR into memory...",
            Event.status "loading" ("Using device: " ++ deviceOf env),
            Event.fatal ("Failed to load model: " ++ e)], 0)
      | Except.ok model =>
          ([Event.status "loading" "Loading Qwen3-ASR into memory...",
            Event.status "loading" ("Using device: " ++ deviceOf env),
            Event.ready] ++ mainLoop model env.stdinLines ++
           [Event.status "shutdown" "Daemon stopping"], 0)

/-- daemonMain embeds main (lines 61-148) together with the process exit
status.  The torch import at line 62 runs first: its failure kills the
process with a traceback before any event, exit status 1.  Then the
initializing status and the cache check; on a cache miss the downloading
status is sent and download_model is called at line 75, where a failing
huggingface_hub or tqdm import propagates uncaught, ending the process
with exit status 1 after the two status events; a caught download failure
yields the fatal event and a plain return (exit 0); otherwise the load
phase follows.  No path calls sys.exit, so every run that returns from
main exits 0. -/
def daemonMain (env : Env) : List Event × Nat :=
  match env.importTorch with
  | Except.error _ => ([], 1)
  | Except.ok _ =>
    if check_model_exists env.fs env.cacheDir MODEL_NAME then
      (Event.status "initializing" "Checking model cache..." ::
       Event.status "cached" "Model found in cache" :: (loadPhase env).1,
       (loadPhase env).2)
    else
      match (download_model env MODEL_NAME).2 with
      | DlOutcome.crash _ =>
          (Event.status "initializing" "Checking model cache..." ::
           Event.status "downloading" "Model not found. Starting download..." ::
           (download_model env MODEL_NAME).1, 1)
      | DlOutcome.failed =>
          (Event.status "initializing" "Checking model cache..." ::
           Event.status "downloading" "Model not found. Starting download..." ::
           (download_model env MODEL_NAME).1 ++ [Event.fatal "Failed to download model"], 0)
      | DlOutcome.ok _ =>
          (Event.status "initializing" "Checking model cache..." ::
           Event.status "downloading" "Model not found. Starting download..." ::
           (download_model env MODEL_NAME).1 ++ (loadPhase env).1,
           (loadPhase env).2)

/-- A model that raises on every path, as a real backend does on a missing
file. -/
def mFileErr : TModel :=
  ⟨fun p => Except.error ("No such file: " ++ p)⟩

/-- A model that echoes the path it was invoked on as the transcribed
text, exposing which argument the daemon passes to transcribe. -/
def mEcho : TModel :=
  ⟨fun p => Except.ok [⟨p, none⟩]⟩

/-- A model returning text with edge whitespace and a reported language. -/
def mPad : TModel :=
  ⟨fun _ => Except.ok [⟨"  hello world  ", some "en"⟩]⟩

/-- A model returning an empty result list. -/
def mEmpty : TModel :=
  ⟨fun _ => Except.ok []⟩

/-- A filesystem on which every probe fails. -/
def fsErr : RawFS :=
  ⟨fun _ => Except.error "Permission denied", fun _ => Except.error "Permission denied"⟩

/-- An empty, readable filesystem. -/
def fsEmpty : RawFS :=
  ⟨fun _ => Except.ok false, fun _ => Except.ok []⟩

/-- An environment whose imports succeed but whose download fails. -/
def envDlFail : Env where
  fs := fsEmpty
  cacheDir := "/tmp/cache"
  importTorch := Except.ok ()
  importHub := Except.ok ()
  download := Except.error "network down"
  mps := false
  cuda := false
  importQwen := Except.ok ()
  load := fun _ => Except.error "unused"
  stdinLines := []

/-- An environment with an empty cache and a missing huggingface_hub
module: download_model crashes uncaught. -/
def envHubMissing : Env where
  fs := fsEmpty
  cacheDir := "/tmp/cache"
  importTorch := Except.ok ()
  importHub := Except.error "No module named huggingface_hub"
  download := Except.ok ()
  mps := false
  cuda := false
  importQwen := Except.ok ()
  load := fun _ => Except.error "unused"
  stdinLines := []

/-- A filesystem holding exactly one model directory with a safetensors
file in it. -/
def fsModel : RawFS :=
  ⟨fun _ => Except.ok true, fun _ => Except.ok ["model.safetensors"]⟩

/-- Unfolding lemma: a non-blank, non-QUIT line is dispatched as an audio
path, with a transcribing status and a model invocation on the stripped
line. -/
theorem mainLoop_dispatch (m : TModel) (l : String) (rest : List String)
    (h1 : pyStrip l ≠ "") (h2 : pyStrip l ≠ "QUIT") :
    mainLoop m (l :: rest) =
      Event.status "transcribing" "Processing audio..." ::
      processResult (m.transcribe (pyStrip l)) :: mainLoop m rest := by
  simp [mainLoop, h1, h2]

/-- processResult never yields a fatal event. -/
theorem processResult_ne_fatal (res : Except String (List TResult)) (msg : String) :
    processResult res ≠ Event.fatal msg := by
  cases res with
  | ok l => cases l <;> simp [processResult]
  | error e => simp [processResult]

/-- The command loop never emits a fatal event. -/
theorem fatal_not_mem_mainLoop (m : TModel) (ls : List String) (msg : String) :
    Event.fatal msg ∉ mainLoop m ls := by
  induction ls with
  | nil => simp [mainLoop]
  | cons l rest ih =>
    by_cases h1 : pyStrip l = ""
    · simpa [mainLoop, h1] using ih
    · by_cases h2 : pyStrip l = "QUIT"
      · simp [mainLoop, h1, h2]
      · rw [mainLoop_dispatch m l rest h1 h2]
        intro hmem
        rcases List.mem_cons.mp hmem with h | hmem'
        · exact Event.noConfusion h
        · rcases List.mem_cons.mp hmem' with h | hmem''
          · exact processResult_ne_fatal _ _ h.symm
          · exact ih hmem''

/-- pyReplaceSlash maps a nonempty list to a nonempty list. -/
theorem pyReplaceSlash_ne_nil (c : Char) (cs : List Char) :
    pyReplaceSlash (c :: cs) ≠ [] := by
  unfold pyReplaceSlash; split <;> simp

/-- On identifiers free of the dash character, the slash-to-double-dash
replacement is injective. -/
theorem pyReplaceSlash_inj (l1 : List Char) : ∀ l2 : List Char, '-' ∉ l1 → '-' ∉ l2 →
    pyReplaceSlash l1 = pyReplaceSlash l2 → l1 = l2 := by
  induction l1 with
  | nil =>
    intro l2 _ _ h
    cases l2 with
    | nil => rfl
    | cons c cs => exact absurd h.symm (pyReplaceSlash_ne_nil c cs)
  | cons a as ih =>
    intro l2 h1 h2 h
    cases l2 with
    | nil => exact absurd h (pyReplaceSlash_ne_nil a as)
    | cons b bs =>
      have ha : a ≠ '-' := fun e => h1 (e ▸ List.mem_cons_self a as)
      have hb : b ≠ '-' := fun e => h2 (e ▸ List.mem_cons_self b bs)
      have h1' : '-' ∉ as := fun hm => h1 (List.mem_cons_of_mem _ hm)
      have h2' : '-' ∉ bs := fun hm => h2 (List.mem_cons_of_mem _ hm)
      by_cases ea : a = '/'
      · by_cases eb : b = '/'
        · subst ea; subst eb
          simp only [pyReplaceSlash, if_pos rfl] at h
          injection h with _ h'
          injection h' with _ h''
          rw [ih bs h1' h2' h'']
        · simp only [pyReplaceSlash, if_pos ea, if_neg eb] at h
          injection h with hhead _
          exact absurd hhead.symm hb
      · by_cases eb : b = '/'
        · simp only [pyReplaceSlash, if_neg ea, if_pos eb] at h
          injection h with hhead _
          exact absurd hhead ha
        · simp only [pyReplaceSlash, if_neg ea, if_neg eb] at h
          injection h with hhead htail
          rw [hhead, ih bs h1' h2' htail]

/-- getLast? skips the head whenever the tail is nonempty. -/
theorem getLast?_cons_of_ne_nil {α : Type} (a : α) {l : List α} (h : l ≠ []) :
    (a :: l).getLast? = l.getLast? := by
  cases l with
  | nil => exact absurd rfl h
  | cons b bs => exact List.getLast?_cons_cons

/-- The load phase always returns exit status 0. -/
theorem loadPhase_snd (env : Env) : (loadPhase env).2 = 0 := by
  unfold loadPhase
  rcases env.importQwen with e | u
  · rfl
  · dsimp only
    rcases env.load (if pathExists env.fs (modelPath env.cacheDir MODEL_NAME)
        then modelPath env.cacheDir MODEL_NAME else MODEL_NAME) with e | model <;> rfl

/-- The load phase emits at least one event. -/
theorem loadPhase_ne_nil (env : Env) : (loadPhase env).1 ≠ [] := by
  unfold loadPhase
  rcases env.importQwen with e | u
  · simp
  · dsimp only
    rcases env.load (if pathExists env.fs (modelPath env.cacheDir MODEL_NAME)
        then modelPath env.cacheDir MODEL_NAME else MODEL_NAME) with e | model <;> simp

/-- Whenever the load phase emits a fatal event, that event is the last
one it emits. -/
theorem loadPhase_fatal_last (env : Env) (msg : String)
    (h : Event.fatal msg ∈ (loadPhase env).1) :
    (loadPhase env).1.getLast? = some (Event.fatal msg) := by
  unfold loadPhase at h ⊢
  cases himp : env.importQwen with
  | error e =>
    simp only [himp] at h ⊢
    simp only [List.mem_cons, List.not_mem_nil, or_false, Event.fatal.injEq] at h
    rcases h with h | h
    · exact Event.noConfusion h
    · rw [h]; rfl
  | ok u =>
    simp only [himp] at h ⊢
    cases hl : env.load (if pathExists env.fs (modelPath env.cacheDir MODEL_NAME)
        then modelPath env.cacheDir MODEL_NAME else MODEL_NAME) with
    | error e =>
      simp only [hl] at h ⊢
      simp only [List.mem_cons, List.not_mem_nil, or_false] at h
      rcases h with h | h
      · exact Event.noConfusion h
      · rcases h with h | h
        · exact Event.noConfusion h
        · rw [h]; rfl
    | ok model =>
      exfalso
      simp only [hl] at h
      simp [fatal_not_mem_mainLoop] at h

/-- Claim C5 (amended): whenever the daemon emits a fatal event, that
event is the last one emitted, so the daemon terminates immediately after
it, but the process then exits with status 0, the success status, the
same exit indication as normal shutdown via the quit sentinel or
end-of-input; in fact every run whose module imports succeed exits 0,
fatal event or not.  The only non-zero exits are uncaught import
failures, and those runs emit no fatal event: a failing torch import at
line 62 dies before any event, and a failing huggingface_hub or tqdm
module import at lines 41-42 dies inside download_model, after the
initializing and downloading status events. -/
theorem exit_success_and_fatal_last (env : Env) :
    (env.importTorch = Except.ok () → env.importHub = Except.ok () →
      (daemonMain env).2 = 0) ∧
    ∀ msg, Event.fatal msg ∈ (daemonMain env).1 →
      (daemonMain env).1.getLast? = some (Event.fatal msg) ∧
      (daemonMain env).2 = 0 := by
  have hln := loadPhase_ne_nil env
  have hl0 := loadPhase_snd env
  cases ht : env.importTorch with
  | error e =>
    constructor
    · intro h1 _
      exact Except.noConfusion h1
    · intro msg h
      simp only [daemonMain, ht] at h
      simp at h
  | ok u =>
    by_cases hc : check_model_exists env.fs env.cacheDir MODEL_NAME
    · constructor
      · intro _ _
        simp [daemonMain, ht, hc, hl0]
      · intro msg h
        simp only [daemonMain, ht, if_pos hc] at h ⊢
        refine ⟨?_, hl0⟩
        rw [getLast?_cons_of_ne_nil _ (List.cons_ne_nil _ _), getLast?_cons_of_ne_nil _ hln]
        have hmem : Event.fatal msg ∈ (loadPhase env).1 := by
          rcases List.mem_cons.mp h with h' | h'
          · exact absurd h' (by simp)
          · rcases List.mem_cons.mp h' with h'' | h''
            · exact absurd h'' (by simp)
            · exact h''
        exact loadPhase_fatal_last env msg hmem
    · cases hh : env.importHub with
      | error e2 =>
        constructor
        · intro _ h2
          exact Except.noConfusion h2
        · intro msg h
          simp only [daemonMain, ht, if_neg hc, download_model, hh] at h
          simp at h
      | ok u2 =>
        cases hdl : env.download with
        | error e =>
          constructor
          · intro _ _
            simp [daemonMain, ht, hc, download_model, hh, hdl]
          · intro msg h
            simp only [daemonMain, ht, if_neg hc, download_model, hh, hdl] at h ⊢
            refine ⟨?_, by trivial⟩
            simp at h
            rw [h]
            rfl
        | ok u3 =>
          constructor
          · intro _ _
            simp [daemonMain, ht, hc, download_model, hh, hdl, hl0]
          · intro msg h
            simp only [daemonMain, ht, if_neg hc, download_model, hh, hdl,
              List.cons_append, List.nil_append] at h ⊢
            refine ⟨?_, hl0⟩
            rw [getLast?_cons_of_ne_nil _ (List.cons_ne_nil _ _),
              getLast?_cons_of_ne_nil _ (List.cons_ne_nil _ _),
              getLast?_cons_of_ne_nil _ (List.cons_ne_nil _ _),
              getLast?_cons_of_ne_nil _ hln]
            have hmem : Event.fatal msg ∈ (loadPhase env).1 := by
              rcases List.mem_cons.mp h with h' | h'
              · exact absurd h' (by simp)
              · rcases List.mem_cons.mp h' with h'' | h''
                · exact absurd h'' (by simp)
                · rcases List.mem_cons.mp h'' with h3 | h3
                  · exact absurd h3 (by simp)
                  · rcases List.mem_cons.mp h3 with h4 | h4
                    · exact absurd h4 (by simp)
                    · exact h4
            exact loadPhase_fatal_last env msg hmem

/-- Claim C5 (counterexample): with an empty cache and a failing download,
the daemon emits a fatal event yet the process exit status is 0, the
success status, contradicting the required non-zero failure indication. -/
theorem fatal_then_exit_zero :
    Event.fatal "Failed to download model" ∈ (daemonMain envDlFail).1 ∧
    (daemonMain envDlFail).2 = 0 := by decide

/-- Claim C5 (witness): the amended theorem applied to the concrete
failing-download environment, discharging the import hypotheses and the
fatal-membership hypothesis there. -/
theorem exit_success_and_fatal_last_w :
    (daemonMain envDlFail).2 = 0 ∧
    (daemonMain envDlFail).1.getLast? = some (Event.fatal "Failed to download model") :=
  ⟨(exit_success_and_fatal_last envDlFail).1 rfl rfl,
   ((exit_success_and_fatal_last envDlFail).2 "Failed to download model" (by decide)).1⟩

/-- The uncaught-import path excluded by the exit-status implication:
with an empty cache and a missing huggingface_hub module, the daemon
emits the initializing and downloading status events and then dies with
exit status 1, emitting no fatal event. -/
theorem hub_import_crash_events :
    daemonMain envHubMissing =
      ([Event.status "initializing" "Checking model cache...",
        Event.status "downloading" "Model not found. Starting download..."], 1) := by decide

/-- Claim C1 (counterexample): for the line /nonexistent/file.wav, whose
path references no existing file, the daemon still emits a transcribing
status event and still invokes the model (the model raises, and the error
event carries the message the model raised), contradicting the claimed
fail-fast behavior. -/
theorem missing_file_still_transcribed :
    mainLoop mFileErr ["/nonexistent/file.wav"] =
      [Event.status "transcribing" "Processing audio...",
       Event.error "Transcription failed: No such file: /nonexistent/file.wav"] := by decide

/-- Claim C1 (amended): the daemon performs no existence check.  Every
non-blank, non-QUIT line is answered with a transcribing status and an
invocation of the model on the stripped line; when the model raises, as a
real backend does on a missing file, exactly one error event follows,
carrying the diagnostic raised by the model, and the loop continues with
the remaining input. -/
theorem missing_file_not_checked (m : TModel) (l : String) (rest : List String) (e : String)
    (h1 : pyStrip l ≠ "") (h2 : pyStrip l ≠ "QUIT")
    (h3 : m.transcribe (pyStrip l) = Except.error e) :
    mainLoop m (l :: rest) =
      Event.status "transcribing" "Processing audio..." ::
      Event.error ("Transcription failed: " ++ e) :: mainLoop m rest := by
  rw [mainLoop_dispatch m l rest h1 h2, h3]; rfl

/-- Claim C1 (witness): the amended theorem at a concrete missing path. -/
theorem missing_file_not_checked_w :
    mainLoop mFileErr ["/nonexistent/file.wav"] =
      Event.status "transcribing" "Processing audio..." ::
      Event.error ("Transcription failed: " ++ "No such file: /nonexistent/file.wav") ::
      mainLoop mFileErr [] :=
  missing_file_not_checked mFileErr "/nonexistent/file.wav" []
    "No such file: /nonexistent/file.wav" (by decide) (by decide) (by decide)

/-- Claim C2 (counterexample): the lines LOAD_MODEL:demo/model-a and
CHECK_MODEL:demo/model-a are treated as audio file paths: each gets a
transcribing status and the model is invoked on the literal line (the echo
model reveals the argument), so no load or cache-status operation is
dispatched. -/
theorem command_lines_transcribed :
    mainLoop mEcho ["LOAD_MODEL:demo/model-a", "CHECK_MODEL:demo/model-a"] =
      [Event.status "transcribing" "Processing audio...",
       Event.transcription "LOAD_MODEL:demo/model-a" "unknown",
       Event.status "transcribing" "Processing audio...",
       Event.transcription "CHECK_MODEL:demo/model-a" "unknown"] := by decide

/-- Claim C2 (amended): the daemon has no command prefixes.  Every line
whose stripped form is non-blank and differs from QUIT, including lines of
the form LOAD_MODEL:identifier and CHECK_MODEL:identifier, is dispatched
as an audio file path: a transcribing status is emitted and the model is
invoked on the stripped line. -/
theorem command_lines_treated_as_paths (m : TModel) (l : String) (rest : List String)
    (h1 : pyStrip l ≠ "") (h2 : pyStrip l ≠ "QUIT") :
    mainLoop m (l :: rest) =
      Event.status "transcribing" "Processing audio..." ::
      processResult (m.transcribe (pyStrip l)) :: mainLoop m rest :=
  mainLoop_dispatch m l rest h1 h2

/-- Claim C2 (witness): the amended theorem at the concrete line
LOAD_MODEL:demo/model-a. -/
theorem command_lines_treated_as_paths_w :
    mainLoop mEcho ["LOAD_MODEL:demo/model-a"] =
      Event.status "transcribing" "Processing audio..." ::
      processResult (mEcho.transcribe (pyStrip "LOAD_MODEL:demo/model-a")) ::
      mainLoop mEcho [] :=
  command_lines_treated_as_paths mEcho "LOAD_MODEL:demo/model-a" []
    (by decide) (by decide)

/-- Claim C3 (counterexample): the lowercase line quit is not a sentinel:
it is transcribed as an audio path and the following line x is still
processed, contradicting case-insensitive quit handling. -/
theorem lowercase_quit_not_sentinel :
    Event.transcription "x" "unknown" ∈ mainLoop mEcho ["quit", "x"] := by decide

/-- Claim C3 (amended): only the exact uppercase line QUIT, after
whitespace stripping, stops the command loop; once such a line is read, no
further line is processed and no further event is emitted by the loop. -/
theorem quit_stops_loop (m : TModel) (l : String) (rest : List String)
    (h : pyStrip l = "QUIT") : mainLoop m (l :: rest) = [] := by
  simp [mainLoop, h]

/-- Claim C3 (witness): the amended theorem at QUIT followed by a further
line, which is not processed. -/
theorem quit_stops_loop_w : mainLoop mEcho ["QUIT", "x"] = [] :=
  quit_stops_loop mEcho "QUIT" ["x"] (by decide)

/-- Claim C4 (counterexample): a transcription whose text has leading and
trailing whitespace is emitted verbatim, not trimmed, and the emitted
event has no duration field at all (the transcription constructor carries
only text and language). -/
theorem transcription_text_untrimmed :
    mainLoop mPad ["a.wav"] =
      [Event.status "transcribing" "Processing audio...",
       Event.transcription "  hello world  " "en"] ∧
    pyStrip "  hello world  " ≠ "  hello world  " := by decide

/-- Claim C4 (amended): on a successful transcription the emitted event
carries the text of the first result verbatim, with no whitespace
trimming, and the language reported by the model, defaulting to unknown
when the model reports none; no duration is measured or emitted and no
caller language hint exists. -/
theorem transcription_event_fields (m : TModel) (l : String) (rest : List String)
    (r : TResult) (tl : List TResult)
    (h1 : pyStrip l ≠ "") (h2 : pyStrip l ≠ "QUIT")
    (h3 : m.transcribe (pyStrip l) = Except.ok (r :: tl)) :
    mainLoop m (l :: rest) =
      Event.status "transcribing" "Processing audio..." ::
      Event.transcription r.text (r.language.getD "unknown") :: mainLoop m rest := by
  rw [mainLoop_dispatch m l rest h1 h2, h3]; rfl

/-- Claim C4 (witness): the amended theorem at a model returning padded
text with a reported language. -/
theorem transcription_event_fields_w :
    mainLoop mPad ["a.wav"] =
      Event.status "transcribing" "Processing audio..." ::
      Event.transcription (TResult.mk "  hello world  " (some "en")).text
        ((TResult.mk "  hello world  " (some "en")).language.getD "unknown") ::
      mainLoop mPad [] :=
  transcription_event_fields mPad "a.wav" [] ⟨"  hello world  ", some "en"⟩ []
    (by decide) (by decide) (by decide)

/-- Claim C6 (counterexample): the cache-key mapping is not injective: the
distinct identifiers a/b and a--b derive the same cache-directory name. -/
theorem cacheKey_collision :
    cacheKey "a/b" = cacheKey "a--b" ∧ ("a/b" : String) ≠ "a--b" := by decide

/-- Claim C6 (amended): the cache-key mapping is deterministic (a pure
function of the identifier) and is injective on identifiers that contain
no dash character; in general distinct identifiers may collide, since the
dash is not escaped. -/
theorem cacheKey_injective_on_dashfree (s1 s2 : String)
    (h1 : '-' ∉ s1.data) (h2 : '-' ∉ s2.data)
    (h : cacheKey s1 = cacheKey s2) : s1 = s2 := by
  have hd : pyReplaceSlash s1.data = pyReplaceSlash s2.data := by
    have hc := congrArg String.data h
    simpa [cacheKey] using hc
  have he := pyReplaceSlash_inj s1.data s2.data h1 h2 hd
  cases s1
  cases s2
  exact congrArg String.mk he

/-- Claim C6 (witness): the amended theorem at a concrete dash-free pair. -/
theorem cacheKey_injective_on_dashfree_w : ("a/b" : String) = "a/b" :=
  cacheKey_injective_on_dashfree "a/b" "a/b" (by decide) (by decide) (by decide)

/-- Claim C7: whenever a raw filesystem primitive used by the cache probe
fails (the existence test or the directory listing), check_model_exists
returns false instead of propagating the failure: the embedding routes
every primitive failure through the pathlib wrappers, which absorb it. -/
theorem check_model_exists_error_false (fs : RawFS) (c n e : String)
    (h : fs.rawExists (modelPath c n) = Except.error e ∨
         fs.rawGlob (modelPath c n) = Except.error e) :
    check_model_exists fs c n = false := by
  rcases h with h | h
  · simp [check_model_exists, pathExists, h]
  · unfold check_model_exists
    by_cases hp : pathExists fs (modelPath c n)
    · simp [hp, pathGlobNames, h]
    · simp [hp]

/-- Claim C7 (witness): the probe on a filesystem whose primitives all
fail returns false. -/
theorem check_model_exists_error_false_w :
    check_model_exists fsErr "/tmp/cache" "demo/model-a" = false :=
  check_model_exists_error_false fsErr "/tmp/cache" "demo/model-a"
    "Permission denied" (Or.inl rfl)

/-- Claim C8: a failure raised by the model during transcription of one
line is caught and converted into an error event carrying the diagnostic;
the events for the remaining input, produced by the very same model value,
form a suffix of the output (the loop continues and the model handle is
untouched), and no fatal event is ever emitted by the loop. -/
theorem inference_failure_recoverable (m : TModel) (l : String) (rest : List String)
    (e : String)
    (h1 : pyStrip l ≠ "") (h2 : pyStrip l ≠ "QUIT")
    (h3 : m.transcribe (pyStrip l) = Except.error e) :
    Event.error ("Transcription failed: " ++ e) ∈ mainLoop m (l :: rest) ∧
    List.IsSuffix (mainLoop m rest) (mainLoop m (l :: rest)) ∧
    ∀ msg, Event.fatal msg ∉ mainLoop m (l :: rest) := by
  have hd : mainLoop m (l :: rest) =
      Event.status "transcribing" "Processing audio..." ::
      Event.error ("Transcription failed: " ++ e) :: mainLoop m rest := by
    rw [mainLoop_dispatch m l rest h1 h2, h3]; rfl
  refine ⟨?_, ?_, ?_⟩
  · rw [hd]
    exact List.mem_cons_of_mem _ (List.mem_cons_self _ _)
  · rw [hd]
    exact ⟨[Event.status "transcribing" "Processing audio...",
            Event.error ("Transcription failed: " ++ e)], rfl⟩
  · exact fun msg => fatal_not_mem_mainLoop m (l :: rest) msg

/-- Claim C8 (witness): the theorem at a model raising on a concrete
path. -/
theorem inference_failure_recoverable_w :
    Event.error ("Transcription failed: " ++ "No such file: /bad.wav") ∈
      mainLoop mFileErr ["/bad.wav"] ∧
    List.IsSuffix (mainLoop mFileErr []) (mainLoop mFileErr ["/bad.wav"]) ∧
    ∀ msg, Event.fatal msg ∉ mainLoop mFileErr ["/bad.wav"] :=
  inference_failure_recoverable mFileErr "/bad.wav" [] "No such file: /bad.wav"
    (by decide) (by decide) (by decide)

/-- Claim C9: the cache probe returns true exactly when the directory
cache_dir slash the identifier with every slash replaced by two dashes
exists and its listing holds at least one entry whose name contains the
substring safetensors; nothing else, in particular no config.json test,
influences the outcome. -/
theorem check_model_exists_characterization (fs : RawFS) (c n : String) :
    check_model_exists fs c n = true ↔
      pathExists fs (c ++ "/" ++ cacheKey n) = true ∧
      ∃ f ∈ pathGlobNames fs (c ++ "/" ++ cacheKey n), hasSub f "safetensors" = true := by
  unfold check_model_exists modelPath
  by_cases hp : pathExists fs (c ++ "/" ++ cacheKey n)
  · simp [hp, List.any_eq_true]
  · simp [hp]

/-- Claim C9 (witness): the characterization at a filesystem holding a
safetensors entry. -/
theorem check_model_exists_characterization_w :
    check_model_exists fsModel "/tmp/cache" "demo/model-a" = true ↔
      pathExists fsModel ("/tmp/cache" ++ "/" ++ cacheKey "demo/model-a") = true ∧
      ∃ f ∈ pathGlobNames fsModel ("/tmp/cache" ++ "/" ++ cacheKey "demo/model-a"),
        hasSub f "safetensors" = true :=
  check_model_exists_characterization fsModel "/tmp/cache" "demo/model-a"

/-- Claim C10: when the model returns an empty result list for a line, the
daemon emits a transcription event with empty text and language none, not
an error event, and the loop continues. -/
theorem empty_result_yields_empty_transcription (m : TModel) (l : String)
    (rest : List String)
    (h1 : pyStrip l ≠ "") (h2 : pyStrip l ≠ "QUIT")
    (h3 : m.transcribe (pyStrip l) = Except.ok []) :
    mainLoop m (l :: rest) =
      Event.status "transcribing" "Processing audio..." ::
      Event.transcription "" "none" :: mainLoop m rest := by
  rw [mainLoop_dispatch m l rest h1 h2, h3]; rfl

/-- Claim C10 (witness): the theorem at a model returning an empty list. -/
theorem empty_result_yields_empty_transcription_w :
    mainLoop mEmpty ["a.wav"] =
      Event.status "transcribing" "Processing audio..." ::
      Event.transcription "" "none" :: mainLoop mEmpty [] :=
  empty_result_yields_empty_transcription mEmpty "a.wav" []
    (by decide) (by decide) (by decide)
